import Mathlib

/-!
Shallow embedding of the configuration resolver in `src/configuration/mod.rs`
of the maelstrom repository.

Modelling conventions:
* A parsed `url::Url` and a `std::path::PathBuf` are modelled by the string
  they were built from; URL parsing (an external collaborator) is passed in
  as an oracle `String → Option Url`, likewise integer parsing.
* `std::env::var` results are a record of `Option String` (none = `Err`).
* `exit(1)` deep inside the resolver is modelled as an `Except` error carrying
  which fatal condition was reported; the `unimplemented!()` panic in the key
  loader is a distinct outcome constructor.
* Filesystem effects (opening / parsing the YAML settings file, opening,
  stat-ing, reading and PEM-decoding the key file) are oracles describing the
  outcome of each external call; writing the default settings file is tracked
  by a boolean "a save was performed" component of the result.
-/

namespace Maelstrom

/-- A parsed URL, modelled by its textual form; the url crate is external. -/
abbrev Url := String

/-- A filesystem path, modelled by its textual form. -/
abbrev PathBuf := String

/-- PathBuf::from on a string never fails. -/
def pathFrom (s : String) : PathBuf := s

/-- std::time::Duration at the second resolution the source uses. -/
structure Duration where
  secs : Nat
deriving DecidableEq

/-- Duration::from_secs. -/
def Duration.from_secs (n : Nat) : Duration := ⟨n⟩

/-- EnvironmentConfiguration: all-optional record built from environment variables. -/
structure EnvironmentConfiguration where
  server_addr : Option Url
  database_addr : Option Url
  authkey_path : Option PathBuf
  session_expiration : Option Nat
  configuration_path : Option PathBuf
deriving DecidableEq

/-- CliConfiguration: identically shaped all-optional record from CLI flags
(structopt parsing is external; the record is the input to the resolver). -/
structure CliConfiguration where
  server_addr : Option Url
  database_addr : Option Url
  authkey_path : Option PathBuf
  session_expiration : Option Nat
  configuration_path : Option PathBuf
deriving DecidableEq

/-- YamlConfiguration: the settings-file record; it has no configuration_path field. -/
structure YamlConfiguration where
  server_addr : Option Url
  database_addr : Option Url
  authkey_path : Option PathBuf
  session_expiration : Option Nat
deriving DecidableEq

/-- LayeredServerConfiguration: the fully populated merge result. -/
structure LayeredServerConfiguration where
  server_addr : Url
  database_addr : Url
  authkey_path : PathBuf
  session_expiration : Duration
deriving DecidableEq

/-- Raw process environment: the result of std::env::var for each of the five
variable names read by EnvironmentConfiguration::new (none models Err). -/
structure EnvVars where
  maelstrom_server_address : Option String
  maelstrom_database_address : Option String
  maelstrom_authkey_path : Option String
  maelstrom_session_expiration : Option String
  maelstrom_conf_path : Option String
deriving DecidableEq

/-- EnvironmentConfiguration::new: each variable is looked up independently;
a malformed value is dropped to none exactly like an absent one. -/
def EnvironmentConfiguration.new (parseUrl : String → Option Url)
    (parseU64 : String → Option Nat) (vars : EnvVars) : EnvironmentConfiguration :=
  let server_addr :=
    match vars.maelstrom_server_address with
    | some v =>
      match parseUrl v with
      | some u => some u
      | none => none
    | none => none
  let database_addr :=
    match vars.maelstrom_database_address with
    | some v =>
      match parseUrl v with
      | some u => some u
      | none => none
    | none => none
  let authkey_path :=
    match vars.maelstrom_authkey_path with
    | some v => some (pathFrom v)
    | none => none
  let session_expiration :=
    match vars.maelstrom_session_expiration with
    | some v =>
      match parseU64 v with
      | some n => some n
      | none => none
    | none => none
  let configuration_path :=
    match vars.maelstrom_conf_path with
    | some v => some (pathFrom v)
    | none => none
  { server_addr, database_addr, authkey_path, session_expiration, configuration_path }

/-- YamlConfiguration::default: the record written to disk on first run. -/
def YamlConfiguration.default : YamlConfiguration :=
  { server_addr := some ("https://example.net")
    database_addr := some ("postgres://db.example.net")
    authkey_path := some ("/etc/maelstrom/authkey.pem")
    session_expiration := some 3000 }

/-- The three required options of the merge. -/
inductive RequiredField
  | server_addr
  | database_addr
  | authkey_path
deriving DecidableEq

/-- The fatal conditions on which LayeredServerConfiguration::new calls exit(1). -/
inductive ConfigError
  | noConfigPath
  | yamlParseError
  | yamlWriteError
  | otherIoError
  | missingRequired (f : RequiredField)
deriving DecidableEq

/-- Outcome of File::open on the settings file, and, when it opens, of
serde_yaml::from_reader on its contents (Except.error = parse failure). -/
inductive FileOpen
  | opened (parse : Except Unit YamlConfiguration)
  | notFound
  | otherError

/-- The source's repeated per-required-field merge pattern: first non-absent
value scanning env, then cli, then yaml; all absent is a fatal missing-option
error naming the field. -/
def require (e c y : Option α) (f : RequiredField) : Except ConfigError α :=
  match e with
  | some v => Except.ok v
  | none =>
    match c with
    | some v => Except.ok v
    | none =>
      match y with
      | some v => Except.ok v
      | none => Except.error (ConfigError.missingRequired f)

/-- The source's session_expiration merge: first non-absent value scanning
env, then cli, then yaml, else the built-in 60 seconds. -/
def sessionFromLayers (e c y : Option Nat) : Duration :=
  match e with
  | some v => Duration.from_secs v
  | none =>
    match c with
    | some v => Duration.from_secs v
    | none =>
      match y with
      | some v => Duration.from_secs v
      | none => Duration.from_secs 60

/-- Lines 213-263 of the source: build the layered record field by field. -/
def mergeLayers (env : EnvironmentConfiguration) (cli : CliConfiguration)
    (yaml : YamlConfiguration) : Except ConfigError LayeredServerConfiguration :=
  match require env.server_addr cli.server_addr yaml.server_addr RequiredField.server_addr with
  | Except.error e => Except.error e
  | Except.ok server_addr =>
    match require env.database_addr cli.database_addr yaml.database_addr RequiredField.database_addr with
    | Except.error e => Except.error e
    | Except.ok database_addr =>
      match require env.authkey_path cli.authkey_path yaml.authkey_path RequiredField.authkey_path with
      | Except.error e => Except.error e
      | Except.ok authkey_path =>
        Except.ok
          { server_addr, database_addr, authkey_path
            session_expiration :=
              sessionFromLayers env.session_expiration cli.session_expiration
                yaml.session_expiration }

/-- Lines 183-212 of the source: open and parse the settings file; if it does
not exist, synthesize the default record, save it (saveOk is the outcome of
YamlConfiguration::save) and use it; other open errors and parse errors are
fatal. The boolean records whether a save of the default file was performed. -/
def loadOrCreateYaml (fsr : FileOpen) (saveOk : Bool) :
    Except ConfigError YamlConfiguration × Bool :=
  match fsr with
  | FileOpen.opened (Except.ok y) => (Except.ok y, false)
  | FileOpen.opened (Except.error _) => (Except.error ConfigError.yamlParseError, false)
  | FileOpen.notFound =>
    if saveOk then (Except.ok YamlConfiguration.default, true)
    else (Except.error ConfigError.yamlWriteError, true)
  | FileOpen.otherError => (Except.error ConfigError.otherIoError, false)

/-- Load the settings file then merge the three layers. -/
def loadMerge (env : EnvironmentConfiguration) (cli : CliConfiguration)
    (fsr : FileOpen) (saveOk : Bool) :
    Except ConfigError LayeredServerConfiguration × Bool :=
  match loadOrCreateYaml fsr saveOk with
  | (Except.error e, w) => (Except.error e, w)
  | (Except.ok yaml, w) => (mergeLayers env cli yaml, w)

/-- LayeredServerConfiguration::new (lines 169-265): resolve the settings-file
path from env then cli (fatal if neither), consult the filesystem oracle fs at
that path, then merge. The boolean component records whether a default
settings file was written. -/
def LayeredServerConfiguration.new (env : EnvironmentConfiguration)
    (cli : CliConfiguration) (fs : PathBuf → FileOpen) (saveOk : Bool) :
    Except ConfigError LayeredServerConfiguration × Bool :=
  match env.configuration_path with
  | some p => loadMerge env cli (fs p) saveOk
  | none =>
    match cli.configuration_path with
    | some p => loadMerge env cli (fs p) saveOk
    | none => (Except.error ConfigError.noConfigPath, false)

/-- The decoded ES256 signing key (jsonwebtoken::EncodingKey), by its bytes. -/
structure EncodingKey where
  pem : List Nat
deriving DecidableEq

/-- Oracle for the external calls made while loading the authkey file at one
path: File::open, File::metadata, read_to_end, EncodingKey::from_ec_pem. -/
structure KeyFile where
  openResult : Except Unit Unit
  metadataLen : Except Unit Nat
  readResult : Except Unit (List Nat)
  fromEcPem : List Nat → Except Unit EncodingKey

/-- Outcome of the key-loading block in ServerConfiguration::new: a decoded
key, one of three distinctly reported fatal exits, or the unimplemented!()
panic on a metadata failure. -/
inductive KeyLoad
  | ok (k : EncodingKey)
  | openError
  | readError
  | decodeError
  | panicUnimplemented
deriving DecidableEq

/-- Lines 273-297 of the source: open the key file, query its metadata for the
capacity hint (a failure there is unimplemented!()), read it fully, decode it
as an ES256 PEM key; each failure is a distinct exit. -/
def loadAuthkey (f : KeyFile) : KeyLoad :=
  match f.openResult with
  | Except.error _ => KeyLoad.openError
  | Except.ok _ =>
    match f.metadataLen with
    | Except.error _ => KeyLoad.panicUnimplemented
    | Except.ok _ =>
      match f.readResult with
      | Except.error _ => KeyLoad.readError
      | Except.ok key =>
        match f.fromEcPem key with
        | Except.error _ => KeyLoad.decodeError
        | Except.ok k => KeyLoad.ok k

/-- ServerConfiguration: the final assembled object. -/
structure ServerConfiguration where
  server_addr : Url
  database_addr : Url
  authkey : EncodingKey
  session_expiration : Duration
deriving DecidableEq

/-- Outcome of ServerConfiguration::new: the assembled configuration, a fatal
exit from layering or key loading, or the unimplemented!() panic. -/
inductive Assembly
  | ok (c : ServerConfiguration)
  | exitConfig (e : ConfigError)
  | exitKeyOpen
  | exitKeyRead
  | exitKeyDecode
  | panicUnimplemented
deriving DecidableEq

/-- ServerConfiguration::new (lines 267-301): layer the configuration, then
load and decode the key at the merged authkey_path. -/
def ServerConfiguration.new (env : EnvironmentConfiguration)
    (cli : CliConfiguration) (fs : PathBuf → FileOpen) (saveOk : Bool)
    (keys : PathBuf → KeyFile) : Assembly :=
  match (LayeredServerConfiguration.new env cli fs saveOk).1 with
  | Except.error e => Assembly.exitConfig e
  | Except.ok layered =>
    match loadAuthkey (keys layered.authkey_path) with
    | KeyLoad.ok k =>
      Assembly.ok
        { server_addr := layered.server_addr
          database_addr := layered.database_addr
          authkey := k
          session_expiration := layered.session_expiration }
    | KeyLoad.openError => Assembly.exitKeyOpen
    | KeyLoad.readError => Assembly.exitKeyRead
    | KeyLoad.decodeError => Assembly.exitKeyDecode
    | KeyLoad.panicUnimplemented => Assembly.panicUnimplemented

/-! ### Helper lemmas about the merge combinators -/

theorem require_ok_iff (e c y : Option α) (f : RequiredField) (v : α) :
    require e c y f = Except.ok v ↔ (e <|> c <|> y) = some v := by
  cases e <;> cases c <;> cases y <;> simp [require]

theorem require_error_iff (e c y : Option α) (f : RequiredField) (er : ConfigError) :
    require e c y f = Except.error er ↔
      (e = none ∧ c = none ∧ y = none ∧ er = ConfigError.missingRequired f) := by
  cases e <;> cases c <;> cases y <;> simp [require, eq_comm]

theorem sessionFromLayers_eq (e c y : Option Nat) :
    sessionFromLayers e c y = Duration.from_secs ((e <|> c <|> y).getD 60) := by
  cases e <;> cases c <;> cases y <;> rfl

/-! ### Shared concrete fixtures -/

def emptyEnv : EnvironmentConfiguration := ⟨none, none, none, none, none⟩

def emptyCli : CliConfiguration := ⟨none, none, none, none, none⟩

def emptyYaml : YamlConfiguration := ⟨none, none, none, none⟩

def fsAbsent : PathBuf → FileOpen := fun _ => FileOpen.notFound

def envW : EnvironmentConfiguration :=
  { server_addr := some ("https://env.example")
    database_addr := none
    authkey_path := none
    session_expiration := none
    configuration_path := none }

def cliW : CliConfiguration :=
  { server_addr := some ("https://cli.example")
    database_addr := some ("postgres://cli.db")
    authkey_path := some ("/cli/key.pem")
    session_expiration := some 120
    configuration_path := none }

def yamlW : YamlConfiguration :=
  { server_addr := some ("https://yaml.example")
    database_addr := some ("postgres://yaml.db")
    authkey_path := some ("/yaml/key.pem")
    session_expiration := some 900 }

def resW : LayeredServerConfiguration :=
  { server_addr := ("https://env.example")
    database_addr := ("postgres://cli.db")
    authkey_path := ("/cli/key.pem")
    session_expiration := Duration.from_secs 120 }

/-! ### C1 -/

/-- C1: for every field of the merged configuration, the merge takes the first
non-absent value scanning environment, then CLI, then file: whenever a merge
succeeds, each field of the result is exactly the first present value in
priority order (with the 60-second fallback for session_expiration), so a
value present in a higher-priority layer always wins regardless of lower
layers. -/
theorem merge_per_field_priority (env : EnvironmentConfiguration)
    (cli : CliConfiguration) (yaml : YamlConfiguration)
    (r : LayeredServerConfiguration) (h : mergeLayers env cli yaml = Except.ok r) :
    (env.server_addr <|> cli.server_addr <|> yaml.server_addr) = some r.server_addr ∧
    (env.database_addr <|> cli.database_addr <|> yaml.database_addr) = some r.database_addr ∧
    (env.authkey_path <|> cli.authkey_path <|> yaml.authkey_path) = some r.authkey_path ∧
    r.session_expiration =
      Duration.from_secs
        ((env.session_expiration <|> cli.session_expiration <|>
          yaml.session_expiration).getD 60) := by
  rcases hs : require env.server_addr cli.server_addr yaml.server_addr
      RequiredField.server_addr with e | sv
  · simp [mergeLayers, hs] at h
  rcases hd : require env.database_addr cli.database_addr yaml.database_addr
      RequiredField.database_addr with e | dv
  · simp [mergeLayers, hs, hd] at h
  rcases ha : require env.authkey_path cli.authkey_path yaml.authkey_path
      RequiredField.authkey_path with e | av
  · simp [mergeLayers, hs, hd, ha] at h
  simp [mergeLayers, hs, hd, ha] at h
  subst h
  refine ⟨?_, ?_, ?_, ?_⟩
  · exact (require_ok_iff _ _ _ _ _).mp hs
  · exact (require_ok_iff _ _ _ _ _).mp hd
  · exact (require_ok_iff _ _ _ _ _).mp ha
  · exact sessionFromLayers_eq _ _ _

/-- C1 witness: the priority property at a concrete merge where the server
address comes from env over cli and yaml, the database address and key path
from cli over yaml, and the lifetime from cli. -/
theorem merge_per_field_priority_witness :
    (envW.server_addr <|> cliW.server_addr <|> yamlW.server_addr) = some resW.server_addr ∧
    (envW.database_addr <|> cliW.database_addr <|> yamlW.database_addr) = some resW.database_addr ∧
    (envW.authkey_path <|> cliW.authkey_path <|> yamlW.authkey_path) = some resW.authkey_path ∧
    resW.session_expiration =
      Duration.from_secs
        ((envW.session_expiration <|> cliW.session_expiration <|>
          yamlW.session_expiration).getD 60) :=
  merge_per_field_priority envW cliW yamlW resW (by rfl)

/-! ### C2 -/

/-- A field chain with no value in any of the three layers. -/
def allAbsent (e c y : Option α) : Bool := e.isNone && c.isNone && y.isNone

/-- The first required field, in the declaration order of the merge, that is
absent in all three layers. -/
def firstMissing (env : EnvironmentConfiguration) (cli : CliConfiguration)
    (yaml : YamlConfiguration) : Option RequiredField :=
  if allAbsent env.server_addr cli.server_addr yaml.server_addr then
    some RequiredField.server_addr
  else if allAbsent env.database_addr cli.database_addr yaml.database_addr then
    some RequiredField.database_addr
  else if allAbsent env.authkey_path cli.authkey_path yaml.authkey_path then
    some RequiredField.authkey_path
  else none

theorem allAbsent_eq_true_iff (e c y : Option α) :
    allAbsent e c y = true ↔ e = none ∧ c = none ∧ y = none := by
  cases e <;> cases c <;> cases y <;> simp [allAbsent]

theorem require_ok_of_not_allAbsent (e c y : Option α) (f : RequiredField)
    (h : allAbsent e c y = false) : ∃ v, require e c y f = Except.ok v := by
  cases e <;> cases c <;> cases y <;> simp_all [require, allAbsent]

/-- C2 counterexample: the claim as stated is false: when the database address
is absent in every layer but so is the server address, the merge reports the
missing server address, not the missing database address. -/
theorem required_missing_names_field_cex :
    ¬ (∀ (env : EnvironmentConfiguration) (cli : CliConfiguration)
        (yaml : YamlConfiguration),
        env.database_addr = none → cli.database_addr = none →
        yaml.database_addr = none →
        mergeLayers env cli yaml =
          Except.error (ConfigError.missingRequired RequiredField.database_addr)) := by
  intro h
  have hc := h emptyEnv emptyCli emptyYaml rfl rfl rfl
  simp [mergeLayers, require, emptyEnv, emptyCli, emptyYaml] at hc

/-- C2 (amended): if a required field is absent in all three layers, the merge
fails rather than producing a configuration, and the error names the first
required field absent in all layers, in the order server_addr, database_addr,
authkey_path; in particular it names exactly the given field whenever that
field is the first all-absent one. -/
theorem required_missing_names_first_field (env : EnvironmentConfiguration)
    (cli : CliConfiguration) (yaml : YamlConfiguration) (f : RequiredField)
    (h : firstMissing env cli yaml = some f) :
    mergeLayers env cli yaml = Except.error (ConfigError.missingRequired f) := by
  unfold firstMissing at h
  split at h
  case isTrue h1 =>
    obtain ⟨he, hc2, hy⟩ := (allAbsent_eq_true_iff _ _ _).mp h1
    cases h
    simp [mergeLayers, require, he, hc2, hy]
  case isFalse h1 =>
    obtain ⟨sv, hsv⟩ := require_ok_of_not_allAbsent env.server_addr cli.server_addr
      yaml.server_addr RequiredField.server_addr (Bool.not_eq_true _ ▸ h1)
    split at h
    case isTrue h2 =>
      obtain ⟨he, hc2, hy⟩ := (allAbsent_eq_true_iff _ _ _).mp h2
      cases h
      have hrd : require env.database_addr cli.database_addr yaml.database_addr
          RequiredField.database_addr =
          Except.error (ConfigError.missingRequired RequiredField.database_addr) := by
        rw [he, hc2, hy]
        rfl
      simp [mergeLayers, hsv, hrd]
    case isFalse h2 =>
      obtain ⟨dv, hdv⟩ := require_ok_of_not_allAbsent env.database_addr
        cli.database_addr yaml.database_addr RequiredField.database_addr
        (Bool.not_eq_true _ ▸ h2)
      split at h
      case isTrue h3 =>
        obtain ⟨he, hc2, hy⟩ := (allAbsent_eq_true_iff _ _ _).mp h3
        cases h
        have hra : require env.authkey_path cli.authkey_path yaml.authkey_path
            RequiredField.authkey_path =
            Except.error (ConfigError.missingRequired RequiredField.authkey_path) := by
          rw [he, hc2, hy]
          rfl
        simp [mergeLayers, hsv, hdv, hra]
      case isFalse h3 => cases h

/-- C2 witness: with the server address supplied by the environment and the
database address absent everywhere, the merge reports the database address. -/
theorem required_missing_names_first_field_witness :
    mergeLayers envW emptyCli emptyYaml =
      Except.error (ConfigError.missingRequired RequiredField.database_addr) :=
  required_missing_names_first_field envW emptyCli emptyYaml
    RequiredField.database_addr (by rfl)

/-! ### C3 -/

/-- C3: if the session-lifetime field is absent in all three layers while each
required field is supplied by some layer, the merge succeeds and the resulting
session lifetime is exactly 60 seconds. -/
theorem default_session_lifetime_sixty (env : EnvironmentConfiguration)
    (cli : CliConfiguration) (yaml : YamlConfiguration)
    (hse : env.session_expiration = none) (hsc : cli.session_expiration = none)
    (hsy : yaml.session_expiration = none)
    (h1 : (env.server_addr <|> cli.server_addr <|> yaml.server_addr).isSome = true)
    (h2 : (env.database_addr <|> cli.database_addr <|> yaml.database_addr).isSome = true)
    (h3 : (env.authkey_path <|> cli.authkey_path <|> yaml.authkey_path).isSome = true) :
    ∃ r, mergeLayers env cli yaml = Except.ok r ∧
      r.session_expiration = Duration.from_secs 60 := by
  obtain ⟨sv, hsv⟩ := Option.isSome_iff_exists.mp h1
  obtain ⟨dv, hdv⟩ := Option.isSome_iff_exists.mp h2
  obtain ⟨av, hav⟩ := Option.isSome_iff_exists.mp h3
  have rs := (require_ok_iff env.server_addr cli.server_addr yaml.server_addr
    RequiredField.server_addr sv).mpr hsv
  have rd := (require_ok_iff env.database_addr cli.database_addr yaml.database_addr
    RequiredField.database_addr dv).mpr hdv
  have ra := (require_ok_iff env.authkey_path cli.authkey_path yaml.authkey_path
    RequiredField.authkey_path av).mpr hav
  refine ⟨{ server_addr := sv, database_addr := dv, authkey_path := av
            session_expiration := sessionFromLayers env.session_expiration
              cli.session_expiration yaml.session_expiration }, ?_, ?_⟩
  · simp [mergeLayers, rs, rd, ra]
  · simp [hse, hsc, hsy, sessionFromLayers]

/-- C3 witness: all required fields from the environment, no session lifetime
anywhere, and the merge yields the 60-second default. -/
theorem default_session_lifetime_sixty_witness :
    ∃ r, mergeLayers
        { server_addr := some ("https://env.example")
          database_addr := some ("postgres://env.db")
          authkey_path := some ("/env/key.pem")
          session_expiration := none
          configuration_path := none } emptyCli emptyYaml = Except.ok r ∧
      r.session_expiration = Duration.from_secs 60 :=
  default_session_lifetime_sixty _ emptyCli emptyYaml rfl rfl rfl
    (by rfl) (by rfl) (by rfl)

/-! ### Path-resolution helper lemmas -/

theorem new_env_path (env : EnvironmentConfiguration) (cli : CliConfiguration)
    (fs : PathBuf → FileOpen) (saveOk : Bool) (p : PathBuf)
    (hp : env.configuration_path = some p) :
    LayeredServerConfiguration.new env cli fs saveOk = loadMerge env cli (fs p) saveOk := by
  simp [LayeredServerConfiguration.new, hp]

theorem new_cli_path (env : EnvironmentConfiguration) (cli : CliConfiguration)
    (fs : PathBuf → FileOpen) (saveOk : Bool) (p : PathBuf)
    (he : env.configuration_path = none) (hp : cli.configuration_path = some p) :
    LayeredServerConfiguration.new env cli fs saveOk = loadMerge env cli (fs p) saveOk := by
  simp [LayeredServerConfiguration.new, he, hp]

/-! ### C4 -/

def envC4 : EnvironmentConfiguration :=
  { server_addr := none
    database_addr := some ("postgres://env.example.net")
    authkey_path := none
    session_expiration := none
    configuration_path := none }

def cliC4 : CliConfiguration :=
  { server_addr := some ("https://cli.example.net")
    database_addr := none
    authkey_path := some ("/cli/authkey.pem")
    session_expiration := none
    configuration_path := some ("/etc/maelstrom/config.yaml") }

def resC4 : LayeredServerConfiguration :=
  { server_addr := ("https://cli.example.net")
    database_addr := ("postgres://env.example.net")
    authkey_path := ("/cli/authkey.pem")
    session_expiration := Duration.from_secs 3000 }

/-- C4 counterexample: in the stated scenario (environment supplies only a
database address, CLI a server address and key path, no file at the resolved
path, the write succeeds) resolution succeeds, but the session lifetime of the
result is 3000 seconds, not the claimed 60 seconds. -/
theorem default_file_scenario_cex :
    (LayeredServerConfiguration.new envC4 cliC4 fsAbsent true).1 = Except.ok resC4 ∧
    resC4.session_expiration ≠ Duration.from_secs 60 :=
  ⟨rfl, by decide⟩

/-- C4 (amended): in that scenario resolution writes a default file to disk
and succeeds with server address from CLI, database address from environment,
key path from CLI, and session lifetime 3000 seconds: the in-memory default
record just written (whose lifetime field is 3000) is consulted by the merge
in the same pass. -/
theorem default_file_scenario_uses_written_default :
    LayeredServerConfiguration.new envC4 cliC4 fsAbsent true = (Except.ok resC4, true) ∧
    some resC4.server_addr = cliC4.server_addr ∧
    some resC4.database_addr = envC4.database_addr ∧
    some resC4.authkey_path = cliC4.authkey_path ∧
    resC4.session_expiration = Duration.from_secs 3000 ∧
    YamlConfiguration.default.session_expiration = some 3000 :=
  ⟨rfl, rfl, rfl, rfl, rfl, rfl⟩

/-! ### C5 -/

/-- C5: the settings-file path comes only from the environment or the CLI:
if neither supplies one, resolution fails with the missing-required-input
error (writing nothing); otherwise the outcome depends on the filesystem only
at the env-or-CLI-resolved path, never at a path taken from file contents. -/
theorem config_path_only_env_or_cli (env : EnvironmentConfiguration)
    (cli : CliConfiguration) (fs fs2 : PathBuf → FileOpen) (saveOk : Bool) :
    (env.configuration_path = none → cli.configuration_path = none →
      LayeredServerConfiguration.new env cli fs saveOk =
        (Except.error ConfigError.noConfigPath, false)) ∧
    (∀ p, (env.configuration_path = some p ∨
        (env.configuration_path = none ∧ cli.configuration_path = some p)) →
      fs p = fs2 p →
      LayeredServerConfiguration.new env cli fs saveOk =
        LayeredServerConfiguration.new env cli fs2 saveOk) := by
  constructor
  · intro he hc
    simp [LayeredServerConfiguration.new, he, hc]
  · rintro p (hp | ⟨he, hp⟩) hfs
    · rw [new_env_path env cli fs saveOk p hp, new_env_path env cli fs2 saveOk p hp, hfs]
    · rw [new_cli_path env cli fs saveOk p he hp, new_cli_path env cli fs2 saveOk p he hp,
        hfs]

/-- C5 witness: no path in the environment and none on the CLI is the fatal
missing-required-input outcome. -/
theorem config_path_only_env_or_cli_witness :
    LayeredServerConfiguration.new emptyEnv emptyCli fsAbsent true =
      (Except.error ConfigError.noConfigPath, false) :=
  (config_path_only_env_or_cli emptyEnv emptyCli fsAbsent fsAbsent true).1 rfl rfl

/-! ### C9 -/

/-- C9: when the environment supplies a settings-file path, that path is the
one at which the filesystem is consulted and the CLI path is irrelevant (any
replacement of it leaves the outcome unchanged); the CLI path determines the
file location only when the environment supplies none. -/
theorem env_path_wins_over_cli (env : EnvironmentConfiguration)
    (cli : CliConfiguration) (fs : PathBuf → FileOpen) (saveOk : Bool) :
    (∀ p, env.configuration_path = some p →
      LayeredServerConfiguration.new env cli fs saveOk =
        loadMerge env cli (fs p) saveOk ∧
      ∀ q, LayeredServerConfiguration.new env cli fs saveOk =
        LayeredServerConfiguration.new env
          { cli with configuration_path := q } fs saveOk) ∧
    (env.configuration_path = none → ∀ p, cli.configuration_path = some p →
      LayeredServerConfiguration.new env cli fs saveOk =
        loadMerge env cli (fs p) saveOk) := by
  constructor
  · intro p hp
    refine ⟨new_env_path env cli fs saveOk p hp, ?_⟩
    intro q
    rw [new_env_path env cli fs saveOk p hp,
      new_env_path env { cli with configuration_path := q } fs saveOk p hp]
    rfl
  · intro he p hp
    exact new_cli_path env cli fs saveOk p he hp

/-- C9 witness: with both layers naming a path, the outcome equals the one at
the environment path and ignores a changed CLI path. -/
theorem env_path_wins_over_cli_witness :
    LayeredServerConfiguration.new
        { emptyEnv with configuration_path := some ("/env/config.yaml") }
        cliC4 fsAbsent true =
      loadMerge { emptyEnv with configuration_path := some ("/env/config.yaml") }
        cliC4 (fsAbsent ("/env/config.yaml")) true :=
  ((env_path_wins_over_cli
    { emptyEnv with configuration_path := some ("/env/config.yaml") }
    cliC4 fsAbsent true).1 ("/env/config.yaml") rfl).1

/-! ### C6 -/

def fsCorrupt : PathBuf → FileOpen := fun _ => FileOpen.opened (Except.error ())

def cliC6 : CliConfiguration :=
  { server_addr := none
    database_addr := none
    authkey_path := none
    session_expiration := none
    configuration_path := some ("/etc/maelstrom/config.yaml") }

/-- C6: if the settings file at the resolved path exists but its contents fail
to parse, resolution fails with the parse error and no default settings file
is written. -/
theorem corrupt_yaml_fatal_no_default_write (env : EnvironmentConfiguration)
    (cli : CliConfiguration) (fs : PathBuf → FileOpen) (saveOk : Bool) (p : PathBuf)
    (hp : env.configuration_path = some p ∨
      (env.configuration_path = none ∧ cli.configuration_path = some p))
    (hfs : fs p = FileOpen.opened (Except.error ())) :
    LayeredServerConfiguration.new env cli fs saveOk =
      (Except.error ConfigError.yamlParseError, false) := by
  rcases hp with hp | ⟨he, hp⟩
  · rw [new_env_path env cli fs saveOk p hp, hfs]
    rfl
  · rw [new_cli_path env cli fs saveOk p he hp, hfs]
    rfl

/-- C6 witness: a CLI-named settings file with unparsable contents is the
fatal parse-error outcome with no default file written. -/
theorem corrupt_yaml_fatal_no_default_write_witness :
    LayeredServerConfiguration.new emptyEnv cliC6 fsCorrupt true =
      (Except.error ConfigError.yamlParseError, false) :=
  corrupt_yaml_fatal_no_default_write emptyEnv cliC6 fsCorrupt true
    ("/etc/maelstrom/config.yaml") (Or.inr ⟨rfl, rfl⟩) rfl

/-! ### C7 -/

def varsW : EnvVars :=
  { maelstrom_server_address := none
    maelstrom_database_address := none
    maelstrom_authkey_path := some ("/env/key.pem")
    maelstrom_session_expiration := none
    maelstrom_conf_path := none }

/-- C7: an environment value that fails to parse for its typed field (URL for
the two address variables, integer for the session lifetime) yields exactly
the record produced when that variable is absent: the field is none and every
other field is untouched; the layer is a total function, so it never fails. -/
theorem malformed_env_value_as_absent (parseUrl : String → Option Url)
    (parseU64 : String → Option Nat) (vars : EnvVars) (s : String) :
    (parseUrl s = none →
      EnvironmentConfiguration.new parseUrl parseU64
          { vars with maelstrom_server_address := some s } =
        EnvironmentConfiguration.new parseUrl parseU64
          { vars with maelstrom_server_address := none }) ∧
    (parseUrl s = none →
      EnvironmentConfiguration.new parseUrl parseU64
          { vars with maelstrom_database_address := some s } =
        EnvironmentConfiguration.new parseUrl parseU64
          { vars with maelstrom_database_address := none }) ∧
    (parseU64 s = none →
      EnvironmentConfiguration.new parseUrl parseU64
          { vars with maelstrom_session_expiration := some s } =
        EnvironmentConfiguration.new parseUrl parseU64
          { vars with maelstrom_session_expiration := none }) := by
  refine ⟨?_, ?_, ?_⟩ <;> intro h <;> simp [EnvironmentConfiguration.new, h]

/-- C7 witness: with a parser rejecting every string, an unparsable server
address in the environment produces the same layer record as an absent one. -/
theorem malformed_env_value_as_absent_witness :
    EnvironmentConfiguration.new (fun _ => none) (fun _ => none)
        { varsW with maelstrom_server_address := some ("not a url") } =
      EnvironmentConfiguration.new (fun _ => none) (fun _ => none)
        { varsW with maelstrom_server_address := none } :=
  (malformed_env_value_as_absent (fun _ => none) (fun _ => none) varsW
    ("not a url")).1 rfl

/-! ### C8 -/

def badMetaKeyFile : KeyFile :=
  { openResult := Except.ok ()
    metadataLen := Except.error ()
    readResult := Except.ok []
    fromEcPem := fun _ => Except.error () }

/-- C8 counterexample: the claim as stated is false: a key file that opens but
whose metadata query fails yields neither a decoded key nor any of the three
reported failure exits (the loader panics instead). -/
theorem keyloader_taxonomy_cex :
    ¬ (∀ f : KeyFile,
        (∃ k, loadAuthkey f = KeyLoad.ok k) ∨ loadAuthkey f = KeyLoad.openError ∨
        loadAuthkey f = KeyLoad.readError ∨ loadAuthkey f = KeyLoad.decodeError) := by
  intro h
  rcases h badMetaKeyFile with ⟨k, hk⟩ | hk | hk | hk <;>
    simp [loadAuthkey, badMetaKeyFile] at hk

/-- C8 (amended): provided the metadata query on the opened key file does not
fail (the one sub-case that panics instead of reporting), the key loader
either fully materializes the decoded key or exits with a distinct report for
each failure sub-case: the file cannot be opened, the file cannot be fully
read, or the content does not decode as an ES256 key; it never panics and has
no partial outcome. -/
theorem keyloader_taxonomy_meta_ok (f : KeyFile)
    (hm : f.metadataLen ≠ Except.error ()) :
    loadAuthkey f ≠ KeyLoad.panicUnimplemented ∧
    (f.openResult = Except.error () → loadAuthkey f = KeyLoad.openError) ∧
    (f.openResult = Except.ok () → f.readResult = Except.error () →
      loadAuthkey f = KeyLoad.readError) ∧
    (∀ key, f.openResult = Except.ok () → f.readResult = Except.ok key →
      f.fromEcPem key = Except.error () → loadAuthkey f = KeyLoad.decodeError) ∧
    (∀ key k, f.openResult = Except.ok () → f.readResult = Except.ok key →
      f.fromEcPem key = Except.ok k → loadAuthkey f = KeyLoad.ok k) := by
  rcases hml : f.metadataLen with e | n
  · cases e
    exact absurd hml hm
  refine ⟨?_, ?_, ?_, ?_, ?_⟩
  · rcases ho : f.openResult with e | u
    · simp [loadAuthkey, ho]
    · cases u
      rcases hr : f.readResult with e2 | key
      · simp [loadAuthkey, ho, hml, hr]
      · rcases hd : f.fromEcPem key with e3 | k <;>
          simp [loadAuthkey, ho, hml, hr, hd]
  · intro ho
    simp [loadAuthkey, ho]
  · intro ho hr
    simp [loadAuthkey, ho, hml, hr]
  · intro key ho hr hd
    simp [loadAuthkey, ho, hml, hr, hd]
  · intro key k ho hr hd
    simp [loadAuthkey, ho, hml, hr, hd]

def goodKeyFile : KeyFile :=
  { openResult := Except.ok ()
    metadataLen := Except.ok 2
    readResult := Except.ok [1, 2]
    fromEcPem := fun b => Except.ok ⟨b⟩ }

/-- C8 witness: a key file that opens, stats, reads and decodes materializes
the decoded key. -/
theorem keyloader_taxonomy_meta_ok_witness :
    loadAuthkey goodKeyFile = KeyLoad.ok ⟨[1, 2]⟩ :=
  (keyloader_taxonomy_meta_ok goodKeyFile (by simp [goodKeyFile])).2.2.2.2
    [1, 2] ⟨[1, 2]⟩ rfl rfl rfl

/-! ### C10 -/

def badMetaKeys : PathBuf → KeyFile := fun _ => badMetaKeyFile

def envC10 : EnvironmentConfiguration :=
  { server_addr := some ("https://env.example")
    database_addr := some ("postgres://env.db")
    authkey_path := some ("/env/key.pem")
    session_expiration := none
    configuration_path := some ("/env/config.yaml") }

def fsEmptyOk : PathBuf → FileOpen := fun _ => FileOpen.opened (Except.ok emptyYaml)

def resC10 : LayeredServerConfiguration :=
  { server_addr := ("https://env.example")
    database_addr := ("postgres://env.db")
    authkey_path := ("/env/key.pem")
    session_expiration := Duration.from_secs 60 }

/-- C10: if the layered configuration resolves and the key file opens but the
metadata query on the open file fails, configuration assembly does not report
a key-loading error and exit: it hits the unimplemented panic, an outcome
distinct from the three reported key-failure exits. -/
theorem metadata_failure_panics (env : EnvironmentConfiguration)
    (cli : CliConfiguration) (fs : PathBuf → FileOpen) (saveOk : Bool)
    (keys : PathBuf → KeyFile) (layered : LayeredServerConfiguration)
    (hok : (LayeredServerConfiguration.new env cli fs saveOk).1 = Except.ok layered)
    (hopen : (keys layered.authkey_path).openResult = Except.ok ())
    (hmeta : (keys layered.authkey_path).metadataLen = Except.error ()) :
    ServerConfiguration.new env cli fs saveOk keys = Assembly.panicUnimplemented := by
  have hk : loadAuthkey (keys layered.authkey_path) = KeyLoad.panicUnimplemented := by
    simp [loadAuthkey, hopen, hmeta]
  simp [ServerConfiguration.new, hok, hk]

/-- C10 witness: a fully resolvable configuration whose key file opens but
fails the metadata query makes assembly panic. -/
theorem metadata_failure_panics_witness :
    ServerConfiguration.new envC10 emptyCli fsEmptyOk true badMetaKeys =
      Assembly.panicUnimplemented :=
  metadata_failure_panics envC10 emptyCli fsEmptyOk true badMetaKeys resC10
    rfl rfl rfl

end Maelstrom
